import Mathlib

/-!
Shallow embedding of `ringcentral_integration`, a Frappe app that receives
RingCentral call-completion webhooks, resolves the customer by phone number,
fetches (or mocks) a call transcript and persists a Communication record.

Source files embedded:
  * `ringcentral_integration/api/ringcentral_webhook_handler.py`
      (`handle_call_webhook`, `find_customer_by_phone`, `get_transcript`,
       `create_call_communication`)
  * `ringcentral_integration/ringcentral_client.py`
      (`MockRingCentralClient`, `connect_to_ringcentral`)

Modelling choices:
  * Python `None`-able strings are `Option String`; Python truthiness of a
    string (`or`, `if not x`) is made explicit.
  * The Frappe database is a record of lists; `frappe.db.get_value` with a
    filter is `List.find?` (first match wins, as the spec notes).
  * The already-parsed JSON payload is a structure; `json.loads` failure and
    any other exception inside the `try` block is an `Except.error`.
  * `frappe.log_error` calls are collected in an output list of log entries.
  * The RingCentral SDK client is a record of response functions; the mock
    client from `ringcentral_client.py` is one concrete instance.
-/

namespace RingCentralIntegration

/-- Python truthiness of an optional string: `None` and `""` are falsy. -/
def strFalsy : Option String → Bool
  | none => true
  | some s => s = ""

/-- Python `a or b` on optional strings: returns `b` when `a` is falsy. -/
def strOr (a b : Option String) : Option String :=
  if strFalsy a then b else a

/-- Python f-string rendering of an optional string: `None` prints as "None". -/
def pyStr : Option String → String
  | none => "None"
  | some s => s

/-- Python `str.strip()`: drop whitespace from both ends. -/
def pyStrip (s : String) : String :=
  String.mk
    (((s.toList.dropWhile Char.isWhitespace).reverse.dropWhile
        Char.isWhitespace).reverse)

/-- Split a character list on commas (Python `str.split(',')`); the result is
never empty. -/
def splitOnComma : List Char → List (List Char)
  | [] => [[]]
  | c :: rest =>
    match splitOnComma rest with
    | [] => [[]]
    | h :: t => if c = ',' then [] :: h :: t else (c :: h) :: t

/-- Python `str.lower()` on ASCII text. -/
def pyLower (s : String) : String :=
  String.mk (s.toList.map Char.toLower)

/-- Python `s[-n:]`: the last `n` characters (all of `s` when shorter). -/
def pyTakeRight (s : String) (n : Nat) : String :=
  String.mk ((s.toList.reverse.take n).reverse)

/-- Does the character list `haystack` contain `needle` as a contiguous
subsequence?  This is SQL `haystack LIKE '%needle%'`. -/
def containsSeq (needle : List Char) : List Char → Bool
  | [] => needle.isEmpty
  | c :: rest => needle.isPrefixOf (c :: rest) || containsSeq needle (rest)

/-- SQL `field LIKE '%pat%'`: `pat` occurs inside `field`. -/
def likeContains (field pat : String) : Bool :=
  containsSeq pat.toList field.toList

/-- `"".join(filter(str.isdigit, phone_number or ""))`: the digit characters
of the phone number, in order (`ringcentral_webhook_handler.py:84`). -/
def cleanedDigits (phone_number : Option String) : String :=
  String.mk (((phone_number.getD "").toList).filter Char.isDigit)

/-- A row of the `Contact` doctype (the fields the handler touches). -/
structure Contact where
  name : String
  primary_contact_no : String
  deriving DecidableEq, Repr

/-- A row of the `Dynamic Link` child table. -/
structure DynamicLink where
  link_doctype : String
  parenttype : String
  parent : String
  link_name : String
  deriving DecidableEq, Repr

/-- A row of the `Customer` doctype (the fields the handler touches). -/
structure Customer where
  name : String
  phone_no : String
  deriving DecidableEq, Repr

/-- A persisted `Communication` document, with the fields
`create_call_communication` sets (`ringcentral_webhook_handler.py:144-170`). -/
structure Communication where
  communication_date : String
  subject : String
  communication_type : String
  content : String
  status : String
  reference_doctype : String
  reference_name : String
  custom_ringcentral_id : Option String
  custom_call_duration : Option Nat
  deriving DecidableEq, Repr

/-- The backing store. `frappe.db.get_value` is first-match search over the
corresponding list. -/
structure DB where
  contacts : List Contact
  dynamicLinks : List DynamicLink
  customers : List Customer
  communications : List Communication
  deriving DecidableEq, Repr

/-- `find_customer_by_phone` (`ringcentral_webhook_handler.py:80-107`):
strip non-digits; empty result returns `None`; otherwise search `Contact`
by `primary_contact_no LIKE %cleaned%`, and if a contact is found return the
`Dynamic Link` to a `Customer` (possibly `None`); only when no contact
matches, fall back to `Customer.phone_no LIKE %cleaned%`. -/
def find_customer_by_phone (phone_number : Option String) (db : DB) :
    Option String :=
  let cleaned_phone := cleanedDigits phone_number
  if cleaned_phone = "" then
    none
  else
    match db.contacts.find?
        (fun c => likeContains c.primary_contact_no cleaned_phone) with
    | some contact =>
        (db.dynamicLinks.find? (fun l =>
            l.link_doctype == "Customer" && l.parenttype == "Contact" &&
            l.parent == contact.name)).map DynamicLink.link_name
    | none =>
        (db.customers.find?
            (fun c => likeContains c.phone_no cleaned_phone)).map Customer.name

/-- The `from`/`to` objects of the webhook payload body. -/
structure PartyInfo where
  phoneNumber : Option String
  extensionNumber : Option String
  deriving DecidableEq, Repr

/-- The `body` object of the webhook payload. -/
structure CallBody where
  from_ : PartyInfo
  to_ : PartyInfo
  duration : Option Nat
  deriving DecidableEq, Repr

/-- The parsed webhook JSON payload (`uuid`, `event`, `body`). -/
structure Payload where
  uuid : Option String
  event : Option String
  body : Option CallBody
  deriving DecidableEq, Repr

/-- The `RingCentral Settings` cached document. -/
structure Settings where
  client_id : Option String
  client_secret : Option String
  environment : Option String
  organization_numbers : Option String
  deriving DecidableEq, Repr

/-- A `frappe.log_error(message, title)` entry. -/
structure LogEntry where
  message : String
  title : String
  deriving DecidableEq, Repr

/-- A call-log record returned by the RingCentral API
(`get_call_log_record`). -/
structure CallLogRecord where
  duration : Option Nat
  transcriptUri : Option String
  deriving DecidableEq, Repr

/-- The RingCentral SDK client, as the response functions the handler calls.
`download_file` already yields the `text_content` of the downloaded data. -/
structure RCClient where
  get_call_log_record : Option String → CallLogRecord
  download_file : String → String

/-- `MockRingCentralClient.get_call_log_record`
(`ringcentral_client.py:19-30`): always supplies a transcript URI built from
the environment segment and the call id. -/
def mock_get_call_log_record (env : String) (call_id : Option String) :
    CallLogRecord :=
  { duration := some 120,
    transcriptUri := some ("https://api." ++ env ++
      ".ringcentral.com/v1.0/account/~/call-log/" ++ pyStr call_id ++
      "/transcript-content") }

/-- `MockRingCentralClient.download_file` (`ringcentral_client.py:32-49`):
canned transcript text embedding the last 36 characters of the URI. -/
def mock_download_file (uri : String) : String :=
  "**RingCentral Call Transcript (ID: " ++ pyTakeRight uri 36 ++ ")**\n\n" ++
  "Agent: Thank you for calling. I see you're interested in the new Pro-Plan. " ++
  "Can I confirm your account details?\n" ++
  "Customer: Yes, that's correct. My number is the one on file.\n" ++
  "Agent: Excellent. I'll send over the quote immediately. The call duration was logged successfully.\n"

/-- The mock client of `ringcentral_client.py`, for a given environment
segment. -/
def MockRingCentralClient (env : String) : RCClient :=
  { get_call_log_record := mock_get_call_log_record env,
    download_file := mock_download_file }

/-- An SDK factory stands for the client construction
(`MockRingCentralClient(client_id, client_secret, env)`); its arguments are
client id, client secret and environment segment.  The handler theorems
quantify over it because the real API's responses (e.g. a call log without a
`transcriptUri`) are not fixed by the code. -/
abbrev RCFactory := Option String → Option String → String → RCClient

/-- The factory that builds the mock client from `ringcentral_client.py`. -/
def mockFactory : RCFactory := fun _ _ env => MockRingCentralClient env

/-- `connect_to_ringcentral` (`ringcentral_client.py:52-62`): maps the
environment to a URL segment and constructs the client. -/
def connect_to_ringcentral (factory : RCFactory)
    (client_id client_secret : Option String) (env : String) : RCClient :=
  let env' := if env = "sandbox" then "sandbox" else "ringcentral"
  factory client_id client_secret env'

/-- The fixed placeholder returned when no transcript URI is present. -/
def transcriptPlaceholder : String := "Transcript not available (No URI found)."

/-- `get_transcript` (`ringcentral_webhook_handler.py:110-142`): read
credentials, lower-case the environment (raises when `environment` is
`None`), connect, fetch the call log, and either download the transcript or
log and return the placeholder when the `transcriptUri` is absent or falsy.
Returns the transcript together with the `frappe.log_error` entries made. -/
def get_transcript (settings : Settings) (factory : RCFactory)
    (call_id : Option String) : Except Unit (String × List LogEntry) :=
  match settings.environment with
  | none => Except.error ()
  | some envRaw =>
    let env := pyLower envRaw
    let rc_client :=
      connect_to_ringcentral factory settings.client_id settings.client_secret env
    let call_log_details := rc_client.get_call_log_record call_id
    if strFalsy call_log_details.transcriptUri then
      Except.ok (transcriptPlaceholder,
        [⟨"Transcript URI missing for Call ID: " ++ pyStr call_id,
          "RingCentral Transcript Error"⟩])
    else
      Except.ok
        (rc_client.download_file (pyStr call_log_details.transcriptUri), [])

/-- `create_call_communication` (`ringcentral_webhook_handler.py:144-170`):
build the subject line, fill the Communication document and insert it.
Returns the new document and the updated store. -/
def create_call_communication (customer communication_type : String)
    (from_num to_num : Option String) (duration : Option Nat)
    (transcript : String) (event_id : Option String) (now : String)
    (db : DB) : Communication × DB :=
  let subject := communication_type ++ ": " ++ customer ++ " (" ++
    pyStr from_num ++ " to " ++ pyStr to_num ++ ")"
  let communication : Communication :=
    { communication_date := now
      subject := subject
      communication_type := "Phone"
      content := transcript
      status := "Closed"
      reference_doctype := "Customer"
      reference_name := customer
      custom_ringcentral_id := event_id
      custom_call_duration := duration }
  (communication, { db with communications := db.communications ++ [communication] })

/-- The empty `call_info` dictionary used when `body` is absent. -/
def emptyCallBody : CallBody :=
  { from_ := { phoneNumber := none, extensionNumber := none }
    to_ := { phoneNumber := none, extensionNumber := none }
    duration := none }

/-- `from_number` extraction (`ringcentral_webhook_handler.py:29`). -/
def extract_from_number (p : Payload) : Option String :=
  let call_info := p.body.getD emptyCallBody
  strOr call_info.from_.phoneNumber call_info.from_.extensionNumber

/-- `to_number` extraction (`ringcentral_webhook_handler.py:30`). -/
def extract_to_number (p : Payload) : Option String :=
  let call_info := p.body.getD emptyCallBody
  strOr call_info.to_.phoneNumber call_info.to_.extensionNumber

/-- The organization number list (`ringcentral_webhook_handler.py:35-37`):
split the comma-separated setting, strip whitespace, drop empties. -/
def parse_org_numbers (settings : Settings) : List String :=
  let org_numbers_str := settings.organization_numbers.getD ""
  (((splitOnComma org_numbers_str.toList).map
      (fun cs => pyStrip (String.mk cs))).filter (fun n => n ≠ ""))

/-- Membership test `to_number in org_numbers` (Python `None` is in no list
of strings). -/
def optMem (x : Option String) (l : List String) : Bool :=
  match x with
  | some s => l.contains s
  | none => false

/-- Direction classification (`ringcentral_webhook_handler.py:40-47`):
if the `to` number is an organization number the call is incoming and the
`from` number is the customer phone; otherwise it is outgoing and the `to`
number is the customer phone. -/
def classify_direction (to_number from_number : Option String)
    (org_numbers : List String) : String × Option String :=
  if optMem to_number org_numbers then
    ("Incoming Call", from_number)
  else
    ("Outgoing Call", to_number)

/-- The customer phone the handler resolves from a payload under given
settings. -/
def resolved_customer_phone (p : Payload) (settings : Settings) :
    Option String :=
  (classify_direction (extract_to_number p) (extract_from_number p)
    (parse_org_numbers settings)).2

/-- A response: body text and HTTP status code. -/
abbrev Resp := String × Nat

/-- The overall outcome of one webhook invocation: response, resulting
store, and the `frappe.log_error` entries made. -/
abbrev Outcome := Resp × DB × List LogEntry

/-- The body of the `try` block for a parsed payload
(`ringcentral_webhook_handler.py:20-71`): extract call details, classify
direction, resolve the customer (404 exit when none), fetch the transcript
and insert the Communication. -/
def process (p : Payload) (settings : Settings) (factory : RCFactory)
    (now : String) (db : DB) : Except Unit Outcome :=
  let event_id := p.uuid
  let from_number := extract_from_number p
  let to_number := extract_to_number p
  let call_info := p.body.getD emptyCallBody
  let call_duration := call_info.duration
  let org_numbers := parse_org_numbers settings
  let dir := classify_direction to_number from_number org_numbers
  let communication_type := dir.1
  let customer_phone := dir.2
  match find_customer_by_phone customer_phone db with
  | none =>
      Except.ok (("Customer lookup failed", 404), db,
        [⟨"Customer not found for phone: " ++ pyStr customer_phone,
          "RingCentral Webhook Failed"⟩])
  | some customer_name => do
      let (call_transcript, tlogs) ← get_transcript settings factory event_id
      let (_, db') := create_call_communication customer_name
        communication_type from_number to_number call_duration
        call_transcript event_id now db
      Except.ok (("Call logged successfully", 200), db', tlogs)

/-- The whole `try` block including `json.loads`: a parse failure is an
exception before `process` starts. -/
def post_result (data : Except Unit Payload) (settings : Settings)
    (factory : RCFactory) (now : String) (db : DB) : Except Unit Outcome :=
  match data with
  | Except.error e => Except.error e
  | Except.ok p => process p settings factory now db

/-- An HTTP request as the handler sees it: the method and the outcome of
parsing its JSON body. -/
structure Request where
  method : String
  data : Except Unit Payload

/-- The message standing for `frappe.get_traceback()` on the error path. -/
def tracebackText : String := "full traceback"

/-- `handle_call_webhook` (`ringcentral_webhook_handler.py:10-78`):
POST requests run the `try` block, any exception is caught, logged with the
traceback and answered with a 500; everything else (including no request
object) answers `("OK", 200)` untouched. -/
def handle_call_webhook (request : Option Request) (settings : Settings)
    (factory : RCFactory) (now : String) (db : DB) : Outcome :=
  match request with
  | some req =>
      if req.method = "POST" then
        match post_result req.data settings factory now db with
        | Except.ok out => out
        | Except.error _ =>
            (("Internal Server Error", 500), db,
              [⟨tracebackText, "RingCentral Webhook Error"⟩])
      else
        (("OK", 200), db, [])
  | none => (("OK", 200), db, [])

/-- Render a duration in seconds as minutes with one decimal digit, the way
Python prints `duration/60` for whole tenths (e.g. 120 → "2.0"). -/
def durationMinutesStr (duration : Nat) : String :=
  let tenths := duration * 10 / 60
  toString (tenths / 10) ++ "." ++ toString (tenths % 10)

/-- Modelled from the spec: the simulated transcript provider — the second,
duplicated handler variant described in the spec ("Simulated: generates a
fixed-template string embedding the call id and duration in minutes, with
canned AI-generated insight text") — is not present under `src/`; only the
live mocked variant is.  Faithful to the spec's words, it embeds the call id
and the duration converted to minutes in a fixed template with canned
AI-generated insight text. -/
def simulated_transcript (call_id : String) (duration : Nat) : String :=
  "Simulated transcript for call " ++ call_id ++
    (": the call lasted " ++ durationMinutesStr duration ++
     " minutes. AI-generated insight: the customer discussed their account and next steps were agreed.")

/-! ### Concrete fixtures for witnesses and counterexamples -/

/-- An empty store. -/
def dbEmpty : DB :=
  { contacts := [], dynamicLinks := [], customers := [], communications := [] }

/-- Settings fixture: sandbox environment, organization numbers
`1001` and `5550001111`. -/
def settingsEx : Settings :=
  { client_id := some "cid", client_secret := some "secret",
    environment := some "Sandbox",
    organization_numbers := some " 1001, 5550001111 " }

/-- A payload with no `body` object. -/
def payloadEmpty : Payload := { uuid := none, event := none, body := none }

/-- A payload for an incoming call: the `to` number is the organization
number `1001`. -/
def payloadIn : Payload :=
  { uuid := some "evt-in", event := some "telephony-call",
    body := some
      { from_ := { phoneNumber := some "+1 (555) 123-4567", extensionNumber := none }
        to_ := { phoneNumber := some "1001", extensionNumber := none }
        duration := some 120 } }

/-- A payload for an outgoing call: the `to` number `5551234567` is not an
organization number. -/
def payloadOut : Payload :=
  { uuid := some "evt-out", event := some "telephony-call",
    body := some
      { from_ := { phoneNumber := some "1001", extensionNumber := none }
        to_ := { phoneNumber := some "5551234567", extensionNumber := none }
        duration := some 60 } }

/-- Store fixture: one contact whose `primary_contact_no` is "5551234567",
linked to customer "CUST-1" through a `Dynamic Link` row. -/
def c3db : DB :=
  { contacts := [⟨"C1", "5551234567"⟩],
    dynamicLinks := [⟨"Customer", "Contact", "C1", "CUST-1"⟩],
    customers := [], communications := [] }

/-- Store fixture: a contact matching "5551234567" with no `Dynamic Link`
row, while customer "CustX" carries the same number in its own
`phone_no` field. -/
def db10 : DB :=
  { contacts := [⟨"C1", "5551234567"⟩],
    dynamicLinks := [],
    customers := [⟨"CustX", "5551234567"⟩], communications := [] }

/-- A client whose call-log responses never carry a transcript URI. -/
def noUriClient : RCClient :=
  { get_call_log_record := fun _ => { duration := none, transcriptUri := none },
    download_file := fun _ => "" }

/-- A factory producing `noUriClient` whatever the credentials. -/
def noUriFactory : RCFactory := fun _ _ _ => noUriClient

/-! ### Helper lemmas -/

/-- When the resolved customer phone matches no customer, a POST request
takes the 404 exit with the store untouched. -/
theorem handle_post_customer_none (p : Payload) (settings : Settings)
    (factory : RCFactory) (now : String) (db : DB)
    (h : find_customer_by_phone (resolved_customer_phone p settings) db = none) :
    handle_call_webhook (some ⟨"POST", Except.ok p⟩) settings factory now db =
      (("Customer lookup failed", 404), db,
        [⟨"Customer not found for phone: " ++
            pyStr (resolved_customer_phone p settings),
          "RingCentral Webhook Failed"⟩]) := by
  simp only [resolved_customer_phone] at h ⊢
  simp [handle_call_webhook, post_result, process, h]

/-- `(s ++ t).toList` splits into the two characters lists. -/
theorem string_toList_append (s t : String) :
    (s ++ t).toList = s.toList ++ t.toList := by
  cases s; cases t; rfl

/-- A needle contained in `ys` is contained in `xs ++ ys`. -/
theorem containsSeq_append_right (needle xs ys : List Char)
    (h : containsSeq needle ys = true) :
    containsSeq needle (xs ++ ys) = true := by
  induction xs with
  | nil => simpa using h
  | cons c rest ih => simp [containsSeq, ih]

/-! ### Claims -/

/-- C1: for every POST payload whose resolved customer phone matches no
customer, `handle_call_webhook` returns `("Customer lookup failed", 404)`,
logs the failure, and leaves the store unchanged: no Communication record
is created. -/
theorem customer_not_found_returns_404 (p : Payload) (settings : Settings)
    (factory : RCFactory) (now : String) (db : DB)
    (h : find_customer_by_phone (resolved_customer_phone p settings) db = none) :
    handle_call_webhook (some ⟨"POST", Except.ok p⟩) settings factory now db =
      (("Customer lookup failed", 404), db,
        [⟨"Customer not found for phone: " ++
            pyStr (resolved_customer_phone p settings),
          "RingCentral Webhook Failed"⟩]) :=
  handle_post_customer_none p settings factory now db h

/-- C1 witness: a payload with no body resolves to no phone, so no customer
matches and the handler answers 404 over the empty store. -/
theorem customer_not_found_returns_404_witness :
    handle_call_webhook (some ⟨"POST", Except.ok payloadEmpty⟩) settingsEx
        mockFactory "2024-01-01 00:00:00" dbEmpty =
      (("Customer lookup failed", 404), dbEmpty,
        [⟨"Customer not found for phone: " ++
            pyStr (resolved_customer_phone payloadEmpty settingsEx),
          "RingCentral Webhook Failed"⟩]) :=
  customer_not_found_returns_404 payloadEmpty settingsEx mockFactory
    "2024-01-01 00:00:00" dbEmpty rfl

/-- C2: if the extracted `to` number is in the organization set the call is
classified "Incoming Call" with the `from` number as customer phone,
otherwise "Outgoing Call" with the `to` number as customer phone. -/
theorem direction_classification (p : Payload) (settings : Settings) :
    (optMem (extract_to_number p) (parse_org_numbers settings) = true →
      classify_direction (extract_to_number p) (extract_from_number p)
          (parse_org_numbers settings) =
        ("Incoming Call", extract_from_number p)) ∧
    (optMem (extract_to_number p) (parse_org_numbers settings) = false →
      classify_direction (extract_to_number p) (extract_from_number p)
          (parse_org_numbers settings) =
        ("Outgoing Call", extract_to_number p)) := by
  constructor <;> intro h <;> simp [classify_direction, h]

/-- C2 witness: with organization numbers 1001 and 5550001111, a call to
1001 is incoming with the `from` side as customer phone, and a call to
5551234567 is outgoing with the `to` side as customer phone. -/
theorem direction_classification_witness :
    classify_direction (extract_to_number payloadIn)
        (extract_from_number payloadIn) (parse_org_numbers settingsEx) =
      ("Incoming Call", extract_from_number payloadIn) ∧
    classify_direction (extract_to_number payloadOut)
        (extract_from_number payloadOut) (parse_org_numbers settingsEx) =
      ("Outgoing Call", extract_to_number payloadOut) :=
  ⟨(direction_classification payloadIn settingsEx).1 (by decide),
   (direction_classification payloadOut settingsEx).2 (by decide)⟩

/-- C3 counterexample: against a stored `primary_contact_no` "5551234567"
(linked to customer "CUST-1"), the input "+1 (555) 123-4567" does NOT
match: its digit string "15551234567" is not a substring of "5551234567",
so `find_customer_by_phone` returns `none`, not the linked customer. -/
theorem plus_prefixed_number_does_not_match :
    find_customer_by_phone (some "+1 (555) 123-4567") c3db = none := by
  decide

/-- C3 amended: two inputs with the same digits in the same order give the
same result (matching is insensitive to non-digit formatting); against a
stored "5551234567" the input "(555) 123-4567" matches, while
"+1 (555) 123-4567" does not, because the cleaned input must occur as a
substring of the stored number and the extra leading 1 prevents that. -/
theorem same_digits_same_result :
    (∀ (a b : Option String) (db : DB), cleanedDigits a = cleanedDigits b →
      find_customer_by_phone a db = find_customer_by_phone b db) ∧
    find_customer_by_phone (some "(555) 123-4567") c3db = some "CUST-1" ∧
    find_customer_by_phone (some "+1 (555) 123-4567") c3db = none := by
  refine ⟨fun a b db h => ?_, by decide, by decide⟩
  simp only [find_customer_by_phone, h]

/-- C3 witness: "+1 (555) 123-4567" and "1-555-123-4567" carry the same
digit string, so the lookup result is identical. -/
theorem same_digits_same_result_witness :
    find_customer_by_phone (some "+1 (555) 123-4567") c3db =
      find_customer_by_phone (some "1-555-123-4567") c3db :=
  same_digits_same_result.1 (some "+1 (555) 123-4567")
    (some "1-555-123-4567") c3db rfl

/-- C4: when the fetched call-log record has no transcript URI (absent or
falsy), `get_transcript` logs the omission and returns the fixed
placeholder, and a Communication created with that transcript carries the
placeholder — a non-empty string — as its `content`. -/
theorem missing_transcript_uri_placeholder (settings : Settings)
    (factory : RCFactory) (call_id : Option String) (env : String)
    (henv : settings.environment = some env)
    (huri : strFalsy ((connect_to_ringcentral factory settings.client_id
        settings.client_secret (pyLower env)).get_call_log_record
          call_id).transcriptUri = true) :
    get_transcript settings factory call_id =
      Except.ok (transcriptPlaceholder,
        [⟨"Transcript URI missing for Call ID: " ++ pyStr call_id,
          "RingCentral Transcript Error"⟩]) ∧
    (∀ (customer communication_type : String) (from_num to_num : Option String)
        (duration : Option Nat) (event_id : Option String) (now : String)
        (db : DB),
      ((create_call_communication customer communication_type from_num to_num
          duration transcriptPlaceholder event_id now db).1).content =
        transcriptPlaceholder) ∧
    transcriptPlaceholder ≠ "" := by
  refine ⟨?_, fun _ _ _ _ _ _ _ _ => rfl, by decide⟩
  simp [get_transcript, henv, huri]

/-- C4 witness: a client answering with no transcript URI yields the
placeholder and the log entry for call id "call-9". -/
theorem missing_transcript_uri_placeholder_witness :
    get_transcript settingsEx noUriFactory (some "call-9") =
      Except.ok (transcriptPlaceholder,
        [⟨"Transcript URI missing for Call ID: " ++ pyStr (some "call-9"),
          "RingCentral Transcript Error"⟩]) ∧
    (∀ (customer communication_type : String) (from_num to_num : Option String)
        (duration : Option Nat) (event_id : Option String) (now : String)
        (db : DB),
      ((create_call_communication customer communication_type from_num to_num
          duration transcriptPlaceholder event_id now db).1).content =
        transcriptPlaceholder) ∧
    transcriptPlaceholder ≠ "" :=
  missing_transcript_uri_placeholder settingsEx noUriFactory (some "call-9")
    "Sandbox" rfl rfl

/-- C5: when any step inside the POST processing raises (any outcome other
than a normal return, the customer-not-found exit included among normal
returns), the handler catches it, logs the traceback under
"RingCentral Webhook Error", answers `("Internal Server Error", 500)` and
leaves the store unchanged. -/
theorem exception_returns_500 (data : Except Unit Payload)
    (settings : Settings) (factory : RCFactory) (now : String) (db : DB)
    (h : post_result data settings factory now db = Except.error ()) :
    handle_call_webhook (some ⟨"POST", data⟩) settings factory now db =
      (("Internal Server Error", 500), db,
        [⟨tracebackText, "RingCentral Webhook Error"⟩]) := by
  simp [handle_call_webhook, h]

/-- C5 witness: a request whose JSON body fails to parse is answered with
500 over an unchanged store. -/
theorem exception_returns_500_witness :
    handle_call_webhook (some ⟨"POST", Except.error ()⟩) settingsEx
        mockFactory "2024-01-01 00:00:00" dbEmpty =
      (("Internal Server Error", 500), dbEmpty,
        [⟨tracebackText, "RingCentral Webhook Error"⟩]) :=
  exception_returns_500 (Except.error ()) settingsEx mockFactory
    "2024-01-01 00:00:00" dbEmpty rfl

/-- C6: every non-POST request — a request with another method or no
request object at all — is answered `("OK", 200)` with no store change and
no log entry. -/
theorem non_post_returns_ok (request : Option Request) (settings : Settings)
    (factory : RCFactory) (now : String) (db : DB)
    (h : ∀ req, request = some req → req.method ≠ "POST") :
    handle_call_webhook request settings factory now db =
      (("OK", 200), db, []) := by
  match request with
  | none => simp [handle_call_webhook]
  | some req =>
    have hm := h req rfl
    simp [handle_call_webhook, hm]

/-- C6 witness: a GET request and an absent request object are both
acknowledged with OK, 200 and no effect. -/
theorem non_post_returns_ok_witness :
    handle_call_webhook (some ⟨"GET", Except.error ()⟩) settingsEx mockFactory
        "2024-01-01 00:00:00" dbEmpty = (("OK", 200), dbEmpty, []) ∧
    handle_call_webhook none settingsEx mockFactory
        "2024-01-01 00:00:00" dbEmpty = (("OK", 200), dbEmpty, []) :=
  ⟨non_post_returns_ok _ _ _ _ _ (fun req hreq => by cases hreq; decide),
   non_post_returns_ok _ _ _ _ _ (fun req hreq => by cases hreq)⟩

/-- C7: with a non-empty cleaned number, the Contact search on
`primary_contact_no` runs first and first match wins: a found contact makes
the result the `Dynamic Link` resolution for that contact, and only when no
contact matches does the lookup fall back to the Customer `phone_no`
search. -/
theorem contact_search_precedes_customer_fallback (phone_number : Option String)
    (db : DB) (h : cleanedDigits phone_number ≠ "") :
    (∀ contact,
      db.contacts.find? (fun c =>
          likeContains c.primary_contact_no (cleanedDigits phone_number)) =
        some contact →
      find_customer_by_phone phone_number db =
        (db.dynamicLinks.find? (fun l =>
            l.link_doctype == "Customer" && l.parenttype == "Contact" &&
            l.parent == contact.name)).map DynamicLink.link_name) ∧
    (db.contacts.find? (fun c =>
        likeContains c.primary_contact_no (cleanedDigits phone_number)) =
      none →
      find_customer_by_phone phone_number db =
        (db.customers.find? (fun c =>
            likeContains c.phone_no (cleanedDigits phone_number))).map
          Customer.name) := by
  constructor
  · intro contact hc
    simp [find_customer_by_phone, h, hc]
  · intro hc
    simp [find_customer_by_phone, h, hc]

/-- C7 witness: with contact "C1" matching "5551234567", the lookup result
is the Dynamic Link resolution for "C1". -/
theorem contact_search_precedes_customer_fallback_witness :
    find_customer_by_phone (some "5551234567") c3db =
      (c3db.dynamicLinks.find? (fun l =>
          l.link_doctype == "Customer" && l.parenttype == "Contact" &&
          l.parent == "C1")).map DynamicLink.link_name :=
  (contact_search_precedes_customer_fallback (some "5551234567") c3db
    (by decide)).1 ⟨"C1", "5551234567"⟩ (by decide)

/-- C8: whenever stripping non-digits leaves nothing — the input `None`, or
a string with no digit — `find_customer_by_phone` returns `none` for every
store, so no query result can influence the outcome. -/
theorem empty_cleaned_returns_none (phone_number : Option String) (db : DB)
    (h : cleanedDigits phone_number = "") :
    find_customer_by_phone phone_number db = none := by
  simp [find_customer_by_phone, h]

/-- C8 witness: the input `None` and a digit-free extension label both
yield `none` over a store that would otherwise match. -/
theorem empty_cleaned_returns_none_witness :
    find_customer_by_phone none c3db = none ∧
    find_customer_by_phone (some "ext-office") c3db = none :=
  ⟨empty_cleaned_returns_none none c3db rfl,
   empty_cleaned_returns_none (some "ext-office") c3db rfl⟩

/-- C9: for every call id, the simulated provider's transcript for a
120-second call contains the substring "2.0 minutes". -/
theorem simulated_transcript_mentions_minutes (call_id : String) :
    likeContains (simulated_transcript call_id 120) "2.0 minutes" = true := by
  have h : containsSeq ("2.0 minutes".toList)
      ((": the call lasted " ++ durationMinutesStr 120 ++
        " minutes. AI-generated insight: the customer discussed their account and next steps were agreed.").toList) =
      true := by decide
  unfold likeContains simulated_transcript
  rw [string_toList_append]
  exact containsSeq_append_right _ _ _ h

/-- C10: when a contact matches the cleaned number but no Dynamic Link row
ties it to a customer, `find_customer_by_phone` returns the null link value
without falling back to the Customer phone-field search — even when a
customer's own `phone_no` would have matched — and the webhook therefore
answers 404 on any payload resolving to that number. -/
theorem dangling_contact_link_returns_none (phone_number : Option String)
    (db : DB) (contact : Contact) (cust : Customer)
    (hclean : cleanedDigits phone_number ≠ "")
    (hcontact : db.contacts.find? (fun c =>
        likeContains c.primary_contact_no (cleanedDigits phone_number)) =
      some contact)
    (hlink : db.dynamicLinks.find? (fun l =>
        l.link_doctype == "Customer" && l.parenttype == "Contact" &&
        l.parent == contact.name) = none)
    (_hcust : db.customers.find? (fun c =>
        likeContains c.phone_no (cleanedDigits phone_number)) = some cust) :
    find_customer_by_phone phone_number db = none ∧
    (∀ (p : Payload) (settings : Settings) (factory : RCFactory) (now : String),
      resolved_customer_phone p settings = phone_number →
      handle_call_webhook (some ⟨"POST", Except.ok p⟩) settings factory now db =
        (("Customer lookup failed", 404), db,
          [⟨"Customer not found for phone: " ++ pyStr phone_number,
            "RingCentral Webhook Failed"⟩])) := by
  have hfind : find_customer_by_phone phone_number db = none := by
    simp [find_customer_by_phone, hclean, hcontact, hlink]
  refine ⟨hfind, fun p settings factory now hres => ?_⟩
  have hmain := handle_post_customer_none p settings factory now db
    (by rw [hres]; exact hfind)
  rwa [hres] at hmain

/-- C10 witness: contact "C1" matches "5551234567" with no Dynamic Link,
customer "CustX" carries the same number, yet the lookup yields `none` and
an outgoing-call payload to that number is answered 404. -/
theorem dangling_contact_link_returns_none_witness :
    find_customer_by_phone (some "5551234567") db10 = none ∧
    handle_call_webhook (some ⟨"POST", Except.ok payloadOut⟩) settingsEx
        mockFactory "2024-01-01 00:00:00" db10 =
      (("Customer lookup failed", 404), db10,
        [⟨"Customer not found for phone: " ++ pyStr (some "5551234567"),
          "RingCentral Webhook Failed"⟩]) :=
  ⟨(dangling_contact_link_returns_none (some "5551234567") db10
      ⟨"C1", "5551234567"⟩ ⟨"CustX", "5551234567"⟩
      (by decide) (by decide) rfl (by decide)).1,
   (dangling_contact_link_returns_none (some "5551234567") db10
      ⟨"C1", "5551234567"⟩ ⟨"CustX", "5551234567"⟩
      (by decide) (by decide) rfl (by decide)).2 payloadOut settingsEx
     mockFactory "2024-01-01 00:00:00" (by decide)⟩

end RingCentralIntegration
